import Mathlib

/-!
Shallow embedding of the EOS inverter energy-flow dispatch
(src/akkudoktoreos/devices/inverter.py, Inverter.process_energy) and of
the load-forecast calibration and profile loading
(src/akkudoktoreos/prediction/loadakkudoktor.py).

Floating point values are modelled as rationals.  The battery and the
self-consumption predictor are external collaborators of the inverter;
they enter `process_energy` as parameters.  `process_energy` also
returns the final battery state and the list of battery calls it issued,
so that frame properties about battery usage can be stated.  The two
inner blocks of the surplus branch of the source function are factored
into the named helper functions `evq_step` and `surplus_step`; they are
line-by-line translations of the corresponding blocks.
-/

/-- Result quadruple of one `process_energy` call, in the order the
source returns it: `(grid_export, grid_import, losses, self_consumption)`. -/
structure EnergyFlowResult where
  grid_export : ℚ
  grid_import : ℚ
  losses : ℚ
  self_consumption : ℚ
deriving DecidableEq

/-- Kind of a battery operation. -/
inductive BatteryOp
  | charge
  | discharge
deriving DecidableEq

/-- Record of one call issued to the battery port. -/
structure BatteryCall where
  op : BatteryOp
  amount : ℚ
  hour : ℕ
deriving DecidableEq

/-- External battery port (`akku` in the source).  `charge_energy` and
`discharge_energy` take the requested amount and the hour and return the
amount actually applied, the conversion losses, and the new battery
state of type `σ`. -/
structure Battery (σ : Type) where
  charge_energy : ℚ → ℕ → σ → ℚ × ℚ × σ
  discharge_energy : ℚ → ℕ → σ → ℚ × ℚ × σ

/-- Imperfect-self-consumption block of the surplus branch of
`process_energy`: if `remaining_load_evq > 0` the battery is asked to
discharge it, discharge losses are accumulated, and whatever the battery
could not supply is drawn from the grid.  Returns
`(from_battery, discharge_losses, grid_import, state, calls)`. -/
def evq_step {σ : Type} (akku : Battery σ) (remaining_load_evq : ℚ)
    (hour : ℕ) (s : σ) : ℚ × ℚ × ℚ × σ × List BatteryCall :=
  if remaining_load_evq > 0 then
    let d := akku.discharge_energy remaining_load_evq hour s
    let rest := remaining_load_evq - d.1
    (d.1, d.2.1, if rest > 0 then rest else 0, d.2.2,
      [BatteryCall.mk BatteryOp.discharge remaining_load_evq hour])
  else
    (0, 0, 0, s, [])

/-- Surplus-charging block of the surplus branch of `process_energy`:
if `remaining_power > 0` the battery is charged with it, the remaining
surplus is fed in capped at the inverter headroom
`max_power_wh - consumption`, the excess above the cap and the charge
losses go to losses.  Returns `(grid_export, losses, state, calls)`. -/
def surplus_step {σ : Type} (max_power_wh : ℚ) (akku : Battery σ)
    (remaining_power consumption : ℚ) (hour : ℕ) (s1 : σ) :
    ℚ × ℚ × σ × List BatteryCall :=
  if remaining_power > 0 then
    let ch := akku.charge_energy remaining_power hour s1
    let remaining_surplus := remaining_power - (ch.1 + ch.2.1)
    if remaining_surplus > max_power_wh - consumption then
      (max_power_wh - consumption,
        (remaining_surplus - (max_power_wh - consumption)) + ch.2.1, ch.2.2,
        [BatteryCall.mk BatteryOp.charge remaining_power hour])
    else
      (remaining_surplus, 0 + ch.2.1, ch.2.2,
        [BatteryCall.mk BatteryOp.charge remaining_power hour])
  else
    (0, 0, s1, [])

/-- Surplus branch of `process_energy` below the saturation test: the
predictor ratio `scr` splits the surplus into `remaining_power`
(towards battery charging and export) and `remaining_load_evq` (the
imperfect part, handled by `evq_step`). -/
def process_energy_normal {σ : Type} (max_power_wh : ℚ) (akku : Battery σ)
    (scr : ℚ) (generation consumption : ℚ) (hour : ℕ) (s : σ) :
    EnergyFlowResult × σ × List BatteryCall :=
  let remaining_power := (generation - consumption) * scr
  let remaining_load_evq := (generation - consumption) * (1 - scr)
  let step1 := evq_step akku remaining_load_evq hour s
  let step2 := surplus_step max_power_wh akku remaining_power consumption hour
    step1.2.2.2.1
  ({ grid_export := step2.1, grid_import := step1.2.2.1,
     losses := step1.2.1 + step2.2.1,
     self_consumption := consumption + step1.1 },
   step2.2.2.1, step1.2.2.2.2 ++ step2.2.2.2)

/-- Embedding of `Inverter.process_energy` from
src/akkudoktoreos/devices/inverter.py.  `max_power_wh` is the inverter
capacity configured at setup, `self_consumption_predictor` is the
external interpolator called as `calculate_self_consumption(consumption,
generation)`, `s` is the incoming battery state.  Besides the
`EnergyFlowResult` quadruple the embedding returns the final battery
state and the trace of battery calls. -/
def process_energy {σ : Type} (max_power_wh : ℚ) (akku : Battery σ)
    (self_consumption_predictor : ℚ → ℚ → ℚ)
    (generation consumption : ℚ) (hour : ℕ) (s : σ) :
    EnergyFlowResult × σ × List BatteryCall :=
  if generation ≥ consumption then
    if consumption > max_power_wh then
      -- If consumption exceeds maximum inverter power
      let losses := generation - max_power_wh
      let remaining_power := max_power_wh - consumption
      ({ grid_export := 0, grid_import := -remaining_power, losses := losses,
         self_consumption := max_power_wh }, s, [])
    else
      process_energy_normal max_power_wh akku
        (self_consumption_predictor consumption generation)
        generation consumption hour s
  else
    -- Case 2: Insufficient generation, cover shortfall
    let shortfall := consumption - generation
    let available_ac_power := max (max_power_wh - generation) 0
    let d := akku.discharge_energy (min shortfall available_ac_power) hour s
    ({ grid_export := 0, grid_import := shortfall - d.1, losses := d.2.1,
       self_consumption := generation + d.1 }, d.2.2,
     [BatteryCall.mk BatteryOp.discharge (min shortfall available_ac_power) hour])

/-- Battery contract stated by the spec for BatteryPort: for a
non-negative requested amount, the applied amount lies between `0` and
the request and the reported losses are non-negative, for charging as
well as for discharging. -/
def BatteryContract {σ : Type} (akku : Battery σ) : Prop :=
  ∀ a : ℚ, ∀ h : ℕ, ∀ s : σ, 0 ≤ a →
    0 ≤ (akku.charge_energy a h s).1 ∧ (akku.charge_energy a h s).1 ≤ a ∧
    0 ≤ (akku.charge_energy a h s).2.1 ∧
    0 ≤ (akku.discharge_energy a h s).1 ∧ (akku.discharge_energy a h s).1 ≤ a ∧
    0 ≤ (akku.discharge_energy a h s).2.1

/-- Strengthened charging contract: a charge call never reports an
applied amount plus losses exceeding the requested amount. -/
def ChargeConservative {σ : Type} (akku : Battery σ) : Prop :=
  ∀ a : ℚ, ∀ h : ℕ, ∀ s : σ, 0 ≤ a →
    (akku.charge_energy a h s).1 + (akku.charge_energy a h s).2.1 ≤ a

/-- Predictor contract stated by the spec: the self-consumption fraction
is always between 0 and 1. -/
def PredictorContract (scp : ℚ → ℚ → ℚ) : Prop :=
  ∀ c g : ℚ, 0 ≤ scp c g ∧ scp c g ≤ 1

/-- Battery that applies nothing and loses nothing; used to evaluate the
theorems on concrete inputs. -/
def zeroBattery : Battery Unit where
  charge_energy := fun _ _ s => (0, 0, s)
  discharge_energy := fun _ _ s => (0, 0, s)

/-- Battery that charges the full request but reports additional
conversion losses of half the request; it satisfies `BatteryContract`
but not `ChargeConservative`. -/
def lossyBattery : Battery Unit where
  charge_energy := fun a _ s => (a, a / 2, s)
  discharge_energy := fun _ _ s => (0, 0, s)

theorem zeroBattery_contract : BatteryContract zeroBattery := by
  intro a h s ha
  simp [zeroBattery, ha]

theorem zeroBattery_conservative : ChargeConservative zeroBattery := by
  intro a h s ha
  simpa [zeroBattery] using ha

theorem one_predictor_contract : PredictorContract (fun _ _ => 1) :=
  fun _ _ => ⟨zero_le_one, le_refl 1⟩

/-- Branch equation: saturation case. -/
theorem process_energy_eq_sat {σ : Type} (M : ℚ) (akku : Battery σ)
    (scp : ℚ → ℚ → ℚ) (g c : ℚ) (hour : ℕ) (s : σ)
    (hgc : g ≥ c) (hcm : c > M) :
    process_energy M akku scp g c hour s =
      ({ grid_export := 0, grid_import := -(M - c), losses := g - M,
         self_consumption := M }, s, []) := by
  unfold process_energy
  rw [if_pos hgc, if_pos hcm]

/-- Branch equation: surplus case below saturation. -/
theorem process_energy_eq_normal {σ : Type} (M : ℚ) (akku : Battery σ)
    (scp : ℚ → ℚ → ℚ) (g c : ℚ) (hour : ℕ) (s : σ)
    (hgc : g ≥ c) (hcm : ¬ c > M) :
    process_energy M akku scp g c hour s =
      process_energy_normal M akku (scp c g) g c hour s := by
  unfold process_energy
  rw [if_pos hgc, if_neg hcm]

/-- Branch equation: deficit case. -/
theorem process_energy_eq_deficit {σ : Type} (M : ℚ) (akku : Battery σ)
    (scp : ℚ → ℚ → ℚ) (g c : ℚ) (hour : ℕ) (s : σ)
    (hgc : ¬ g ≥ c) :
    process_energy M akku scp g c hour s =
      ({ grid_export := 0,
         grid_import := (c - g) -
           (akku.discharge_energy (min (c - g) (max (M - g) 0)) hour s).1,
         losses := (akku.discharge_energy (min (c - g) (max (M - g) 0)) hour s).2.1,
         self_consumption := g +
           (akku.discharge_energy (min (c - g) (max (M - g) 0)) hour s).1 },
       (akku.discharge_energy (min (c - g) (max (M - g) 0)) hour s).2.2,
       [BatteryCall.mk BatteryOp.discharge (min (c - g) (max (M - g) 0)) hour]) := by
  unfold process_energy
  rw [if_neg hgc]

/-- Contract consequences for `evq_step`: the battery contribution, the
reported losses and the grid import produced by the block are all
non-negative. -/
theorem evq_step_nonneg {σ : Type} (akku : Battery σ) (e : ℚ) (hour : ℕ)
    (s : σ) (hbat : BatteryContract akku) :
    0 ≤ (evq_step akku e hour s).1 ∧ 0 ≤ (evq_step akku e hour s).2.1 ∧
    0 ≤ (evq_step akku e hour s).2.2.1 := by
  simp only [evq_step]
  split_ifs with h1 h2
  · obtain ⟨_, _, _, hd0, _, hd2⟩ := hbat e hour s (le_of_lt h1)
    exact ⟨hd0, hd2, le_of_lt h2⟩
  · obtain ⟨_, _, _, hd0, _, hd2⟩ := hbat e hour s (le_of_lt h1)
    exact ⟨hd0, hd2, le_refl 0⟩
  · exact ⟨le_refl 0, le_refl 0, le_refl 0⟩

/-- Positivity of the grid import produced by `evq_step` forces the
imperfect-surplus quantity itself to be positive. -/
theorem evq_step_import_pos {σ : Type} (akku : Battery σ) (e : ℚ) (hour : ℕ)
    (s : σ) (h : 0 < (evq_step akku e hour s).2.2.1) : 0 < e := by
  simp only [evq_step] at h
  split_ifs at h with h1 h2
  · exact h1
  · exact absurd h (lt_irrefl 0)
  · exact absurd h (lt_irrefl 0)

/-- Contract consequences for `surplus_step`: grid export and losses are
non-negative, provided charging also conserves energy. -/
theorem surplus_step_nonneg {σ : Type} (M : ℚ) (akku : Battery σ)
    (p c : ℚ) (hour : ℕ) (s1 : σ) (hbat : BatteryContract akku)
    (hcons : ChargeConservative akku) (hcm : c ≤ M) :
    0 ≤ (surplus_step M akku p c hour s1).1 ∧
    0 ≤ (surplus_step M akku p c hour s1).2.1 := by
  simp only [surplus_step]
  split_ifs with h1 h2
  · obtain ⟨_, _, hc2, _, _, _⟩ := hbat p hour s1 (le_of_lt h1)
    constructor
    · show (0 : ℚ) ≤ M - c
      linarith
    · show (0 : ℚ) ≤
        ((p - ((akku.charge_energy p hour s1).1 + (akku.charge_energy p hour s1).2.1)) -
          (M - c)) + (akku.charge_energy p hour s1).2.1
      linarith
  · obtain ⟨_, _, hc2, _, _, _⟩ := hbat p hour s1 (le_of_lt h1)
    have hrs := hcons p hour s1 (le_of_lt h1)
    constructor
    · show (0 : ℚ) ≤
        p - ((akku.charge_energy p hour s1).1 + (akku.charge_energy p hour s1).2.1)
      linarith
    · show (0 : ℚ) ≤ 0 + (akku.charge_energy p hour s1).2.1
      linarith
  · exact ⟨le_refl 0, le_refl 0⟩

/-- The grid export produced by `surplus_step` never exceeds the
inverter headroom. -/
theorem surplus_step_export_le {σ : Type} (M : ℚ) (akku : Battery σ)
    (p c : ℚ) (hour : ℕ) (s1 : σ) (hcm : c ≤ M) :
    (surplus_step M akku p c hour s1).1 ≤ M - c := by
  simp only [surplus_step]
  split_ifs with h1 h2
  · exact le_refl (M - c)
  · push_neg at h2
    exact h2
  · show (0 : ℚ) ≤ M - c
    linarith

/-- C1 counterexample: a battery with `0 ≤ applied ≤ requested` and
`losses ≥ 0` whose charge losses exceed the remaining surplus makes
`process_energy` return a strictly negative `grid_export`. -/
theorem process_energy_nonneg_counterexample :
    0 ≤ (lossyBattery.charge_energy 1000 0 ()).1 ∧
    (lossyBattery.charge_energy 1000 0 ()).1 ≤ 1000 ∧
    0 ≤ (lossyBattery.charge_energy 1000 0 ()).2.1 ∧
    (process_energy 10000 lossyBattery (fun _ _ => 1) 2000 1000 0 ()).1.grid_export
      = -500 := by
  refine ⟨by norm_num [lossyBattery], by norm_num [lossyBattery],
    by norm_num [lossyBattery], ?_⟩
  norm_num [process_energy, process_energy_normal, evq_step, surplus_step,
    lossyBattery]

/-- C1 (amended): all four fields of the `process_energy` result are
non-negative for `generation, consumption ≥ 0`, a positive configured
`max_power_wh` (the InverterParameters validation enforces
`max_power_wh > 0`), a predictor ratio in `[0, 1]`, and a battery that,
besides `0 ≤ amount_applied ≤ requested` and `losses ≥ 0`, reports
charge calls with `amount_applied + losses ≤ requested`. -/
theorem process_energy_nonneg {σ : Type} (max_power_wh : ℚ)
    (akku : Battery σ) (scp : ℚ → ℚ → ℚ) (generation consumption : ℚ)
    (hour : ℕ) (s : σ) (hM : 0 < max_power_wh) (hg : 0 ≤ generation)
    (hc : 0 ≤ consumption) (hbat : BatteryContract akku)
    (hcons : ChargeConservative akku) (hscp : PredictorContract scp) :
    0 ≤ (process_energy max_power_wh akku scp generation consumption hour s).1.grid_export ∧
    0 ≤ (process_energy max_power_wh akku scp generation consumption hour s).1.grid_import ∧
    0 ≤ (process_energy max_power_wh akku scp generation consumption hour s).1.losses ∧
    0 ≤ (process_energy max_power_wh akku scp generation consumption hour s).1.self_consumption := by
  by_cases hgc : generation ≥ consumption
  · by_cases hcm : consumption > max_power_wh
    · rw [process_energy_eq_sat max_power_wh akku scp generation consumption hour s hgc hcm]
      refine ⟨le_refl 0, ?_, ?_, le_of_lt hM⟩
      · exact neg_nonneg.mpr (sub_nonpos.mpr (le_of_lt hcm))
      · exact sub_nonneg.mpr (le_trans (le_of_lt hcm) hgc)
    · rw [process_energy_eq_normal max_power_wh akku scp generation consumption hour s hgc hcm]
      push_neg at hcm
      obtain ⟨he1, he2, he3⟩ := evq_step_nonneg akku
        ((generation - consumption) * (1 - scp consumption generation)) hour s hbat
      obtain ⟨hs1, hs2⟩ := surplus_step_nonneg max_power_wh akku
        ((generation - consumption) * scp consumption generation) consumption hour
        ((evq_step akku
          ((generation - consumption) * (1 - scp consumption generation)) hour s).2.2.2.1)
        hbat hcons hcm
      exact ⟨hs1, he3, add_nonneg he2 hs2, add_nonneg hc he1⟩
  · rw [process_energy_eq_deficit max_power_wh akku scp generation consumption hour s hgc]
    push_neg at hgc
    have hreq : 0 ≤ min (consumption - generation) (max (max_power_wh - generation) 0) :=
      le_min (by linarith) (le_max_right _ _)
    obtain ⟨_, _, _, hd0, hd1, hd2⟩ := hbat
      (min (consumption - generation) (max (max_power_wh - generation) 0)) hour s hreq
    refine ⟨le_refl 0, ?_, hd2, add_nonneg hg hd0⟩
    exact sub_nonneg.mpr (le_trans hd1 (min_le_left _ _))

theorem process_energy_nonneg_witness :
    0 ≤ (process_energy 10000 zeroBattery (fun _ _ => 1) 8000 3000 0 ()).1.grid_export ∧
    0 ≤ (process_energy 10000 zeroBattery (fun _ _ => 1) 8000 3000 0 ()).1.grid_import ∧
    0 ≤ (process_energy 10000 zeroBattery (fun _ _ => 1) 8000 3000 0 ()).1.losses ∧
    0 ≤ (process_energy 10000 zeroBattery (fun _ _ => 1) 8000 3000 0 ()).1.self_consumption :=
  process_energy_nonneg 10000 zeroBattery (fun _ _ => 1) 8000 3000 0 ()
    (by norm_num) (by norm_num) (by norm_num)
    zeroBattery_contract zeroBattery_conservative one_predictor_contract

/-- C2: in the saturation branch (`consumption > max_power_wh` and
`generation ≥ consumption`) the result is `grid_export = 0`,
`grid_import = consumption - max_power_wh`,
`losses = generation - max_power_wh` and
`self_consumption = max_power_wh`, independent of battery and
predictor. -/
theorem process_energy_saturation {σ : Type} (max_power_wh : ℚ)
    (akku : Battery σ) (scp : ℚ → ℚ → ℚ) (generation consumption : ℚ)
    (hour : ℕ) (s : σ)
    (hgc : generation ≥ consumption) (hcm : consumption > max_power_wh) :
    (process_energy max_power_wh akku scp generation consumption hour s).1 =
      { grid_export := 0, grid_import := consumption - max_power_wh,
        losses := generation - max_power_wh,
        self_consumption := max_power_wh } := by
  rw [process_energy_eq_sat max_power_wh akku scp generation consumption hour s hgc hcm]
  simp [neg_sub]

theorem process_energy_saturation_witness :
    (process_energy 10000 zeroBattery (fun _ _ => 1) 15000 12000 0 ()).1 =
      { grid_export := 0, grid_import := 12000 - 10000,
        losses := 15000 - 10000, self_consumption := 10000 } :=
  process_energy_saturation 10000 zeroBattery (fun _ _ => 1) 15000 12000 0 ()
    (by norm_num) (by norm_num)

/-- C3: in the deficit branch (`generation < consumption`) grid export
is zero, self-consumption plus grid import add up exactly to the
consumption, and the reported losses are exactly the discharge losses
returned by the battery for the single discharge request issued. -/
theorem process_energy_deficit_balance {σ : Type} (max_power_wh : ℚ)
    (akku : Battery σ) (scp : ℚ → ℚ → ℚ) (generation consumption : ℚ)
    (hour : ℕ) (s : σ) (hgc : generation < consumption)
    (hbat : BatteryContract akku) :
    (process_energy max_power_wh akku scp generation consumption hour s).1.grid_export = 0 ∧
    (process_energy max_power_wh akku scp generation consumption hour s).1.self_consumption +
      (process_energy max_power_wh akku scp generation consumption hour s).1.grid_import
      = consumption ∧
    (process_energy max_power_wh akku scp generation consumption hour s).1.losses =
      (akku.discharge_energy
        (min (consumption - generation) (max (max_power_wh - generation) 0)) hour s).2.1 := by
  rw [process_energy_eq_deficit max_power_wh akku scp generation consumption hour s
    (not_le.mpr hgc)]
  refine ⟨rfl, ?_, rfl⟩
  have h : ∀ x : ℚ, (generation + x) + ((consumption - generation) - x) = consumption := by
    intro x
    ring
  exact h _

theorem process_energy_deficit_balance_witness :
    (process_energy 10000 zeroBattery (fun _ _ => 1) 1000 4000 0 ()).1.grid_export = 0 ∧
    (process_energy 10000 zeroBattery (fun _ _ => 1) 1000 4000 0 ()).1.self_consumption +
      (process_energy 10000 zeroBattery (fun _ _ => 1) 1000 4000 0 ()).1.grid_import
      = 4000 ∧
    (process_energy 10000 zeroBattery (fun _ _ => 1) 1000 4000 0 ()).1.losses =
      (zeroBattery.discharge_energy
        (min (4000 - 1000) (max (10000 - 1000) 0)) 0 ()).2.1 :=
  process_energy_deficit_balance 10000 zeroBattery (fun _ _ => 1) 1000 4000 0 ()
    (by norm_num) zeroBattery_contract

/-- C4: whenever `generation ≥ consumption` and
`consumption ≤ max_power_wh`, the grid export never exceeds the
inverter headroom `max_power_wh - consumption`. -/
theorem process_energy_export_cap {σ : Type} (max_power_wh : ℚ)
    (akku : Battery σ) (scp : ℚ → ℚ → ℚ) (generation consumption : ℚ)
    (hour : ℕ) (s : σ) (hgc : generation ≥ consumption)
    (hcm : consumption ≤ max_power_wh) (hbat : BatteryContract akku)
    (hscp : PredictorContract scp) :
    (process_energy max_power_wh akku scp generation consumption hour s).1.grid_export ≤
      max_power_wh - consumption := by
  rw [process_energy_eq_normal max_power_wh akku scp generation consumption hour s hgc
    (not_lt.mpr hcm)]
  exact surplus_step_export_le max_power_wh akku
    ((generation - consumption) * scp consumption generation) consumption hour
    ((evq_step akku
      ((generation - consumption) * (1 - scp consumption generation)) hour s).2.2.2.1)
    hcm

theorem process_energy_export_cap_witness :
    (process_energy 10000 zeroBattery (fun _ _ => 1) 8000 3000 0 ()).1.grid_export ≤
      10000 - 3000 :=
  process_energy_export_cap 10000 zeroBattery (fun _ _ => 1) 8000 3000 0 ()
    (by norm_num) (by norm_num) zeroBattery_contract one_predictor_contract

/-- C8 counterexample: with a predictor ratio strictly between 0 and 1
and a battery that neither charges nor discharges, grid export and
grid import are both strictly positive in the same hour. -/
theorem process_energy_both_flows_counterexample :
    0 < (process_energy 10000 zeroBattery (fun _ _ => 1/2) 2000 1000 0 ()).1.grid_export ∧
    0 < (process_energy 10000 zeroBattery (fun _ _ => 1/2) 2000 1000 0 ()).1.grid_import := by
  constructor <;>
    norm_num [process_energy, process_energy_normal, evq_step, surplus_step,
      zeroBattery]

/-- C8 (amended): both flows strictly positive can only happen in the
surplus branch below saturation with a predictor ratio strictly below
one; in the saturation and deficit branches, and whenever the predictor
returns ratio 1, at most one of grid export and grid import is
non-zero. -/
theorem process_energy_flow_exclusivity {σ : Type} (max_power_wh : ℚ)
    (akku : Battery σ) (scp : ℚ → ℚ → ℚ) (generation consumption : ℚ)
    (hour : ℕ) (s : σ)
    (hexp : 0 < (process_energy max_power_wh akku scp generation consumption hour s).1.grid_export)
    (himp : 0 < (process_energy max_power_wh akku scp generation consumption hour s).1.grid_import) :
    consumption < generation ∧ consumption ≤ max_power_wh ∧
      scp consumption generation < 1 := by
  by_cases hgc : generation ≥ consumption
  · by_cases hcm : consumption > max_power_wh
    · rw [process_energy_eq_sat max_power_wh akku scp generation consumption hour s hgc hcm]
        at hexp
      exact absurd hexp (lt_irrefl 0)
    · rw [process_energy_eq_normal max_power_wh akku scp generation consumption hour s hgc hcm]
        at himp
      have he : 0 < (generation - consumption) * (1 - scp consumption generation) :=
        evq_step_import_pos akku
          ((generation - consumption) * (1 - scp consumption generation)) hour s himp
      have h0 : 0 ≤ generation - consumption := sub_nonneg.mpr hgc
      have hcg : consumption < generation := by
        rcases eq_or_lt_of_le h0 with h | h
        · rw [← h, zero_mul] at he
          exact absurd he (lt_irrefl 0)
        · linarith
      have hscr : scp consumption generation < 1 := by
        by_contra hcon
        push_neg at hcon
        nlinarith [mul_nonneg h0 (by linarith : (0:ℚ) ≤ scp consumption generation - 1)]
      exact ⟨hcg, not_lt.mp hcm, hscr⟩
  · rw [process_energy_eq_deficit max_power_wh akku scp generation consumption hour s hgc]
      at hexp
    exact absurd hexp (lt_irrefl 0)

theorem process_energy_flow_exclusivity_witness :
    (1000 : ℚ) < 2000 ∧ (1000 : ℚ) ≤ 10000 ∧ (1/2 : ℚ) < 1 :=
  process_energy_flow_exclusivity 10000 zeroBattery (fun _ _ => 1/2) 2000 1000 0 ()
    (by norm_num [process_energy, process_energy_normal, evq_step, surplus_step,
      zeroBattery])
    (by norm_num [process_energy, process_energy_normal, evq_step, surplus_step,
      zeroBattery])

/-- C10: on a balanced hour (`generation = consumption ≤ max_power_wh`)
the result is `(0, 0, 0, consumption)` for every predictor, the battery
state is returned unchanged, and no battery call is issued. -/
theorem process_energy_balanced_frame {σ : Type} (max_power_wh : ℚ)
    (akku : Battery σ) (scp : ℚ → ℚ → ℚ) (consumption : ℚ) (hour : ℕ)
    (s : σ) (hcm : consumption ≤ max_power_wh) :
    process_energy max_power_wh akku scp consumption consumption hour s =
      ({ grid_export := 0, grid_import := 0, losses := 0,
         self_consumption := consumption }, s, []) := by
  rw [process_energy_eq_normal max_power_wh akku scp consumption consumption hour s
    (le_refl consumption) (not_lt.mpr hcm)]
  simp [process_energy_normal, evq_step, surplus_step]

theorem process_energy_balanced_frame_witness :
    process_energy 10000 zeroBattery (fun _ _ => 1) 3000 3000 0 () =
      ({ grid_export := 0, grid_import := 0, losses := 0,
         self_consumption := 3000 }, (), []) :=
  process_energy_balanced_frame 10000 zeroBattery (fun _ _ => 1) 3000 0 ()
    (by norm_num)

/-!
Calibration part: `LoadAkkudoktor._calculate_adjustment` walks the
trailing measurement window at one-hour steps.  The datetime library and
the measurement store are external; one loop iteration observes of the
cursor `compare_dt` its day of year, hour, day of week, the whole days
between it and `compare_end`, and the measured total.  A `Sample`
records exactly these observations, and the window is the list of
samples produced by the walk; `none` models the case in which the
measurement series has no `max_datetime` at all.
-/

/-- Observations one loop iteration of `_calculate_adjustment` makes of
the walking cursor and the measurement series. -/
structure Sample where
  day_of_year : ℕ
  hour : Fin 24
  day_of_week : ℕ
  days_to_end : ℕ
  load_total : ℚ

/-- Recency weight of a sample: `1 / (days + 1)` where `days` is the
whole-day distance from the sample to the window end. -/
def sampleWeight (s : Sample) : ℚ := 1 / (s.days_to_end + 1)

/-- Residual of a sample against the baseline mean
`data_year_energy[day_of_year - 1, 0, hour]`. -/
def sampleResidual (data : ℕ → Fin 2 → Fin 24 → ℚ) (s : Sample) : ℚ :=
  s.load_total - data (s.day_of_year - 1) (0 : Fin 2) s.hour

/-- Write of one cell of a 24-entry array. -/
def writeAt (f : Fin 24 → ℚ) (i : Fin 24) (v : ℚ) : Fin 24 → ℚ :=
  fun j => if j = i then v else f j

/-- Accumulator of the window walk: the four arrays
`weekday_adjust`, `weekday_adjust_weight`, `weekend_adjust`,
`weekend_adjust_weight` of the source. -/
structure AdjAcc where
  weekday_adjust : Fin 24 → ℚ
  weekday_adjust_weight : Fin 24 → ℚ
  weekend_adjust : Fin 24 → ℚ
  weekend_adjust_weight : Fin 24 → ℚ

/-- All-zero accumulator the walk starts from. -/
def adjInit : AdjAcc :=
  ⟨fun _ => 0, fun _ => 0, fun _ => 0, fun _ => 0⟩

/-- One iteration of the window walk of `_calculate_adjustment`:
accumulate the weighted residual and the weight into the hour bucket of
the weekday or the weekend class of the sample. -/
def adjStep (data : ℕ → Fin 2 → Fin 24 → ℚ) (acc : AdjAcc) (s : Sample) :
    AdjAcc :=
  let weight := sampleWeight s
  let delta := sampleResidual data s * weight
  if s.day_of_week < 5 then
    { acc with
      weekday_adjust :=
        writeAt acc.weekday_adjust s.hour (acc.weekday_adjust s.hour + delta),
      weekday_adjust_weight :=
        writeAt acc.weekday_adjust_weight s.hour
          (acc.weekday_adjust_weight s.hour + weight) }
  else
    { acc with
      weekend_adjust :=
        writeAt acc.weekend_adjust s.hour (acc.weekend_adjust s.hour + delta),
      weekend_adjust_weight :=
        writeAt acc.weekend_adjust_weight s.hour
          (acc.weekend_adjust_weight s.hour + weight) }

/-- Embedding of `LoadAkkudoktor._calculate_adjustment`.  With no
measurement at all (`none`) the source returns the two untouched
all-zero arrays (it returns the weekday array twice, both being zero).
Otherwise it folds the walk over the window samples and then divides
each hour bucket by its weight sum when that sum is positive. -/
def calculate_adjustment (data : ℕ → Fin 2 → Fin 24 → ℚ)
    (measurements : Option (List Sample)) : (Fin 24 → ℚ) × (Fin 24 → ℚ) :=
  match measurements with
  | none => (fun _ => 0, fun _ => 0)
  | some samples =>
      let acc := samples.foldl (adjStep data) adjInit
      (fun i => if acc.weekday_adjust_weight i > 0 then
          acc.weekday_adjust i / acc.weekday_adjust_weight i
        else acc.weekday_adjust i,
       fun i => if acc.weekend_adjust_weight i > 0 then
          acc.weekend_adjust i / acc.weekend_adjust_weight i
        else acc.weekend_adjust i)

/-- Window samples falling on hour `i` and the weekday class. -/
def weekdayBucket (samples : List Sample) (i : Fin 24) : List Sample :=
  samples.filter fun s => decide (s.day_of_week < 5) && decide (s.hour = i)

/-- Window samples falling on hour `i` and the weekend class. -/
def weekendBucket (samples : List Sample) (i : Fin 24) : List Sample :=
  samples.filter fun s => !decide (s.day_of_week < 5) && decide (s.hour = i)

/-- Sum of the weights of a list of samples. -/
def weightSum (l : List Sample) : ℚ := (l.map sampleWeight).sum

/-- Sum of weighted residuals of a list of samples. -/
def residualSum (data : ℕ → Fin 2 → Fin 24 → ℚ) (l : List Sample) : ℚ :=
  (l.map fun s => sampleResidual data s * sampleWeight s).sum

/-- Weighted mean of the residuals as worded by the spec:
`Σ(residual·weight) / Σ(weight)` over the given samples, and `0` when
the weight sum is zero. -/
def specWeightedMean (data : ℕ → Fin 2 → Fin 24 → ℚ) (l : List Sample) : ℚ :=
  if 0 < weightSum l then residualSum data l / weightSum l else 0

theorem sampleWeight_pos (s : Sample) : 0 < sampleWeight s := by
  unfold sampleWeight
  positivity

theorem weightSum_nonneg (l : List Sample) : 0 ≤ weightSum l := by
  induction l with
  | nil => simp [weightSum]
  | cons s t ih =>
    unfold weightSum
    rw [List.map_cons, List.sum_cons]
    exact add_nonneg (le_of_lt (sampleWeight_pos s)) ih

theorem weightSum_pos_of_ne_nil (l : List Sample) (h : l ≠ []) :
    0 < weightSum l := by
  cases l with
  | nil => exact absurd rfl h
  | cons s t =>
    unfold weightSum
    rw [List.map_cons, List.sum_cons]
    exact add_pos_of_pos_of_nonneg (sampleWeight_pos s) (weightSum_nonneg t)

/-- Fold characterisation: after walking the window, each accumulator
cell holds the corresponding bucket sum on top of its initial value. -/
theorem foldl_adjStep (data : ℕ → Fin 2 → Fin 24 → ℚ)
    (samples : List Sample) (acc : AdjAcc) (i : Fin 24) :
    (samples.foldl (adjStep data) acc).weekday_adjust i
      = acc.weekday_adjust i + residualSum data (weekdayBucket samples i) ∧
    (samples.foldl (adjStep data) acc).weekday_adjust_weight i
      = acc.weekday_adjust_weight i + weightSum (weekdayBucket samples i) ∧
    (samples.foldl (adjStep data) acc).weekend_adjust i
      = acc.weekend_adjust i + residualSum data (weekendBucket samples i) ∧
    (samples.foldl (adjStep data) acc).weekend_adjust_weight i
      = acc.weekend_adjust_weight i + weightSum (weekendBucket samples i) := by
  induction samples generalizing acc with
  | nil =>
    simp [weekdayBucket, weekendBucket, residualSum, weightSum]
  | cons s rest ih =>
    rw [List.foldl_cons]
    obtain ⟨ih1, ih2, ih3, ih4⟩ := ih (adjStep data acc s)
    refine ⟨?_, ?_, ?_, ?_⟩
    · rw [ih1]
      by_cases hwd : s.day_of_week < 5
      · by_cases hh : s.hour = i
        · simp [adjStep, writeAt, hwd, hh, weekdayBucket, residualSum,
            List.filter_cons]
          ring
        · simp [adjStep, writeAt, hwd, hh, Ne.symm hh, weekdayBucket,
            residualSum, List.filter_cons]
      · simp [adjStep, hwd, weekdayBucket, residualSum, List.filter_cons]
    · rw [ih2]
      by_cases hwd : s.day_of_week < 5
      · by_cases hh : s.hour = i
        · simp [adjStep, writeAt, hwd, hh, weekdayBucket, weightSum,
            List.filter_cons]
          ring
        · simp [adjStep, writeAt, hwd, hh, Ne.symm hh, weekdayBucket,
            weightSum, List.filter_cons]
      · simp [adjStep, hwd, weekdayBucket, weightSum, List.filter_cons]
    · rw [ih3]
      by_cases hwd : s.day_of_week < 5
      · simp [adjStep, hwd, weekendBucket, residualSum, List.filter_cons]
      · by_cases hh : s.hour = i
        · simp [adjStep, writeAt, hwd, hh, weekendBucket, residualSum,
            List.filter_cons]
          ring
        · simp [adjStep, writeAt, hwd, hh, Ne.symm hh, weekendBucket,
            residualSum, List.filter_cons]
    · rw [ih4]
      by_cases hwd : s.day_of_week < 5
      · simp [adjStep, hwd, weekendBucket, weightSum, List.filter_cons]
      · by_cases hh : s.hour = i
        · simp [adjStep, writeAt, hwd, hh, weekendBucket, weightSum,
            List.filter_cons]
          ring
        · simp [adjStep, writeAt, hwd, hh, Ne.symm hh, weekendBucket,
            weightSum, List.filter_cons]

/-- C5: each hour of the weekday (resp. weekend) adjustment vector is
the weighted mean `Σ(residual·weight) / Σ(weight)` over the window
samples falling on that hour and class, with weight
`1 / (days to window end + 1)` and residual measured total minus
baseline mean at `(day_of_year - 1, hour)`; hours with zero weight sum
keep adjustment `0`. -/
theorem calculate_adjustment_weighted_mean (data : ℕ → Fin 2 → Fin 24 → ℚ)
    (samples : List Sample) (i : Fin 24) :
    (calculate_adjustment data (some samples)).1 i
      = specWeightedMean data (weekdayBucket samples i) ∧
    (calculate_adjustment data (some samples)).2 i
      = specWeightedMean data (weekendBucket samples i) := by
  obtain ⟨h1, h2, h3, h4⟩ := foldl_adjStep data samples adjInit i
  constructor
  · show (if (samples.foldl (adjStep data) adjInit).weekday_adjust_weight i > 0
        then (samples.foldl (adjStep data) adjInit).weekday_adjust i /
          (samples.foldl (adjStep data) adjInit).weekday_adjust_weight i
        else (samples.foldl (adjStep data) adjInit).weekday_adjust i)
      = specWeightedMean data (weekdayBucket samples i)
    rw [h1, h2]
    simp only [adjInit, zero_add]
    unfold specWeightedMean
    by_cases hW : 0 < weightSum (weekdayBucket samples i)
    · rw [if_pos hW, if_pos hW]
    · rw [if_neg hW, if_neg hW]
      have hnil : weekdayBucket samples i = [] := by
        by_contra hne
        exact hW (weightSum_pos_of_ne_nil _ hne)
      rw [hnil]
      simp [residualSum]
  · show (if (samples.foldl (adjStep data) adjInit).weekend_adjust_weight i > 0
        then (samples.foldl (adjStep data) adjInit).weekend_adjust i /
          (samples.foldl (adjStep data) adjInit).weekend_adjust_weight i
        else (samples.foldl (adjStep data) adjInit).weekend_adjust i)
      = specWeightedMean data (weekendBucket samples i)
    rw [h3, h4]
    simp only [adjInit, zero_add]
    unfold specWeightedMean
    by_cases hW : 0 < weightSum (weekendBucket samples i)
    · rw [if_pos hW, if_pos hW]
    · rw [if_neg hW, if_neg hW]
      have hnil : weekendBucket samples i = [] := by
        by_contra hne
        exact hW (weightSum_pos_of_ne_nil _ hne)
      rw [hnil]
      simp [residualSum]

/-- C6: with no measurement at all the calibration returns the all-zero
weekday and weekend adjustment vectors (both of length 24) without
touching any measurement or baseline data. -/
theorem calculate_adjustment_no_measurement (data : ℕ → Fin 2 → Fin 24 → ℚ) :
    calculate_adjustment data none = (fun _ => 0, fun _ => 0) := rfl

/-!
Profile loading: `LoadAkkudoktor.load_data` reads the profile archive
inside a try block.  A missing file raises FileNotFoundError, which the
first handler re-raises as FileNotFoundError; every other exception of
the read, parse, or scaling steps is caught by the second handler and
re-raised as ValueError.  The archive outcome and the optional
`loadakkudoktor_year_energy` configuration value are parameters of the
embedding; multiplying the profile arrays by an absent (None) year
energy raises inside the try block and is therefore caught by the
generic handler.
-/

/-- Outcome of reading the profile archive: file missing, any other
read/parse failure, or the two relative profile arrays. -/
inductive LoadFileOutcome where
  | missing
  | corrupt
  | ok (yearly_profiles yearly_profiles_std : ℕ → Fin 24 → ℚ)

/-- Error kinds `load_data` can raise. -/
inductive LoadError where
  | fileNotFound
  | valueError
deriving DecidableEq

/-- Stacking of the two profile arrays as `zip` does in the source:
stat index 0 is the mean profile, stat index 1 the standard deviation
profile. -/
def profileStack (p ps : ℕ → Fin 24 → ℚ) : ℕ → Fin 2 → Fin 24 → ℚ :=
  fun d st h => if st = 0 then p d h else ps d h

/-- Embedding of `LoadAkkudoktor.load_data`: scales the stacked profile
arrays by `loadakkudoktor_year_energy * 1000`. -/
def load_data (outcome : LoadFileOutcome)
    (loadakkudoktor_year_energy : Option ℚ) :
    Except LoadError (ℕ → Fin 2 → Fin 24 → ℚ) :=
  match outcome with
  | .missing => .error .fileNotFound
  | .corrupt => .error .valueError
  | .ok p ps =>
      match loadakkudoktor_year_energy with
      | none => .error .valueError
      | some y => .ok (fun d st h => profileStack p ps d st h * y * 1000)

/-- C7 counterexample: with the archive present but
`loadakkudoktor_year_energy` absent, `load_data` raises the generic
load error instead of succeeding with an all-zero table. -/
theorem load_data_year_energy_counterexample :
    load_data (LoadFileOutcome.ok (fun _ _ => 1) (fun _ _ => 1)) none =
      Except.error LoadError.valueError := rfl

/-- C7 (amended): an absent `loadakkudoktor_year_energy` does not
degrade to zero scaling; the scaling step fails inside the try block
and `load_data` raises the generic load error (ValueError). -/
theorem load_data_year_energy_missing (p ps : ℕ → Fin 24 → ℚ) :
    load_data (LoadFileOutcome.ok p ps) none =
      Except.error LoadError.valueError := rfl

/-- C9: `load_data` raises the "not found" error exactly when the
profile archive is missing, the generic load error for any other read
or scaling failure, and on success returns the stacked profile arrays
scaled by the yearly energy times 1000. -/
theorem load_data_error_kinds (ye : Option ℚ) (p ps : ℕ → Fin 24 → ℚ)
    (y : ℚ) :
    load_data LoadFileOutcome.missing ye = Except.error LoadError.fileNotFound ∧
    load_data LoadFileOutcome.corrupt ye = Except.error LoadError.valueError ∧
    load_data (LoadFileOutcome.ok p ps) none = Except.error LoadError.valueError ∧
    load_data (LoadFileOutcome.ok p ps) (some y) =
      Except.ok (fun d st h => profileStack p ps d st h * y * 1000) :=
  ⟨rfl, rfl, rfl, rfl⟩
